import Mathlib

/-!
# Logical router link port on tier-1: CRUD adapter

A shallow embedding of `nsxt/resource_nsxt_logical_router_link_port_on_tier1.go`.

* The declarative state store (`schema.ResourceData`, an external collaborator) is a
  record of the fields the resource schema declares, each with its declared type, plus
  the identifier. Values cross its boundary dynamically typed, as Go `interface{}`.
* The management API client (an external collaborator) is a record of four functions, one per remote call. Each
  returns what the Go client returns: a payload, a response pointer (`none` is a nil
  pointer) and an error value (`none` is a nil error).
* An operation yields an `Exec`: how the Go function ended (a returned error value, or a
  runtime panic), the state store afterwards, and the remote calls issued, in order.
-/

set_option linter.dupNamespace false

namespace nsxt

/-! ## Constants of `net/http` -/

/-- Status code `http.StatusCreated`. -/
def StatusCreated : Nat := 201

/-- Status code `http.StatusNotFound`. -/
def StatusNotFound : Nat := 404

/-! ## Data model -/

/-- The part of `http.Response` the resource looks at. -/
structure Response where
  StatusCode : Nat
deriving DecidableEq, Repr

/-- Reference to another object (`common.ResourceReference`). -/
structure ResourceReference where
  IsValid : Bool
  TargetDisplayName : String
  TargetId : String
  TargetType : String
deriving DecidableEq, Repr

/-- Label pair (`common.Tag`). -/
structure Tag where
  Scope : String
  Tag : String
deriving DecidableEq, Repr

/-- Association of a port with a service object (`manager.ServiceBinding`). -/
structure ServiceBinding where
  ServiceId : ResourceReference
deriving DecidableEq, Repr

/-- The record exchanged with the remote API (`manager.LogicalRouterLinkPortOnTier1`),
restricted to the fields the resource reads or writes. `LinkedLogicalRouterPortId` is a
pointer in Go: `none` is the nil pointer. -/
structure LogicalRouterLinkPortOnTier1 where
  Revision : Int
  Description : String
  DisplayName : String
  Id : String
  ResourceType : String
  Tags : List Tag
  LogicalRouterId : String
  LinkedLogicalRouterPortId : Option ResourceReference
  ServiceBindings : List ServiceBinding
deriving DecidableEq, Repr

/-- A Go value handed to or obtained from the state store (`interface{}`). -/
inductive Value where
  | nil
  | int (n : Int)
  | str (s : String)
  | ref (r : Option ResourceReference)
  | tagSet (l : List Tag)
  | refList (l : List ResourceReference)
deriving DecidableEq, Repr

/-- The state store of one resource instance (`schema.ResourceData`): the identifier and
one slot per field of the schema declared in `resourceNsxtLogicalRouterLinkPortOnTier1`,
each of the declared type. The revision is a Go `int` in the store and an `int64` in the
remote record; the conversion between the two keeps the value, so both are integers here. -/
structure ResourceData where
  id : String
  revision : Int
  description : String
  display_name : String
  tag : List Tag
  logical_router_id : String
  linked_logical_router_port_id : String
  service_binding : List ResourceReference
deriving DecidableEq, Repr

/-- Accessor `d.Id()`. -/
def ResourceData.Id (d : ResourceData) : String := d.id

/-- Mutator `d.SetId(v)`: only the identifier changes. -/
def ResourceData.SetId (d : ResourceData) (v : String) : ResourceData :=
  { d with id := v }

/-- Accessor `d.Get(key)`: the value of the field, of the type the schema declares; a key
that is not in the schema gives nil. -/
def ResourceData.Get (d : ResourceData) (key : String) : Value :=
  if key = "revision" then .int d.revision
  else if key = "description" then .str d.description
  else if key = "display_name" then .str d.display_name
  else if key = "tag" then .tagSet d.tag
  else if key = "logical_router_id" then .str d.logical_router_id
  else if key = "linked_logical_router_port_id" then .str d.linked_logical_router_port_id
  else if key = "service_binding" then .refList d.service_binding
  else .nil

/-- Writing a value into a field the schema declares as `schema.TypeString`: a string is
stored, a nil value or nil pointer clears the field, and a value of another shape, a
struct behind a pointer in particular, cannot be converted to a string and is refused. -/
def writeString (key : String) (v : Value) : Except String String :=
  match v with
  | .str s => .ok s
  | .nil => .ok ""
  | .ref none => .ok ""
  | _ => .error (key ++ ": expected type string, got unconvertible type")

/-- Mutator `d.Set(key, value)` of the external state store: stores the value when it
fits the type the schema declares for the field; otherwise the store is left as it was
and an error value is returned. The pair is the store afterwards and the returned error;
the operations of this resource discard that error. -/
def ResourceData.Set (d : ResourceData) (key : String) (v : Value) :
    ResourceData × Option String :=
  if key = "revision" then
    match v with
    | .int n => ({ d with revision := n }, none)
    | _ => (d, some (key ++ ": expected type int"))
  else if key = "description" then
    match writeString key v with
    | .ok s => ({ d with description := s }, none)
    | .error e => (d, some e)
  else if key = "display_name" then
    match writeString key v with
    | .ok s => ({ d with display_name := s }, none)
    | .error e => (d, some e)
  else if key = "tag" then
    match v with
    | .tagSet l => ({ d with tag := l }, none)
    | _ => (d, some (key ++ ": expected a set"))
  else if key = "logical_router_id" then
    match writeString key v with
    | .ok s => ({ d with logical_router_id := s }, none)
    | .error e => (d, some e)
  else if key = "linked_logical_router_port_id" then
    match writeString key v with
    | .ok s => ({ d with linked_logical_router_port_id := s }, none)
    | .error e => (d, some e)
  else if key = "service_binding" then
    match v with
    | .refList l => ({ d with service_binding := l }, none)
    | _ => (d, some (key ++ ": expected a list"))
  else (d, some (key ++ ": invalid key"))

/-- A runtime panic of the Go program. -/
inductive Panic where
  | nilPointerDereference
  | typeAssertion
deriving DecidableEq, Repr

/-- Type assertion `v.(string)`. -/
def Value.assertString (v : Value) : Except Panic String :=
  match v with
  | .str s => .ok s
  | _ => .error .typeAssertion

/-- Type assertion `v.(int)`. -/
def Value.assertInt (v : Value) : Except Panic Int :=
  match v with
  | .int n => .ok n
  | _ => .error .typeAssertion

/-- The management API client (`api.APIClient`, its `LogicalRoutingAndServicesApi`): the
four remote calls the resource issues. Each gives the payload (where there is one), the
response pointer and the error value. -/
structure APIClient where
  CreateLogicalRouterLinkPortOnTier1 :
    LogicalRouterLinkPortOnTier1 →
      LogicalRouterLinkPortOnTier1 × Option Response × Option String
  ReadLogicalRouterLinkPortOnTier1 :
    String → LogicalRouterLinkPortOnTier1 × Option Response × Option String
  UpdateLogicalRouterLinkPortOnTier1 :
    String → LogicalRouterLinkPortOnTier1 →
      LogicalRouterLinkPortOnTier1 × Option Response × Option String
  DeleteLogicalRouterPort : String → Option Response × Option String

/-- A remote call issued by an operation, with its arguments. -/
inductive Call where
  | create (body : LogicalRouterLinkPortOnTier1)
  | read (id : String)
  | update (id : String) (body : LogicalRouterLinkPortOnTier1)
  | delete (id : String)
deriving DecidableEq, Repr

/-- The error values the four operations build with `fmt.Errorf`, one constructor per
call site, carrying the arguments of the format string. -/
inductive OpError where
  | missingId
  | createFailed (cause : String)
  | createStatus (code : Nat)
  | readFailed (cause : String)
  | updateFailed (id : String) (cause : Option String) (resp : Option Response)
  | deleteFailed (cause : String)
deriving DecidableEq, Repr

/-- One run of an operation: `outcome` is `.ok none` when the Go function returned nil,
`.ok (some e)` when it returned the error `e`, `.error p` when it panicked; `d` is the
state store afterwards; `calls` are the remote calls issued, first to last. -/
structure Exec where
  outcome : Except Panic (Option OpError)
  d : ResourceData
  calls : List Call

/-! ## Helpers of the repository -/

/-- Modelled from the spec: `makeResourceReference` is not part of this source file; it
builds the reference of the given type to the given target identifier. -/
def makeResourceReference (resourceType : String) (resourceID : String) :
    Option ResourceReference :=
  some { IsValid := false, TargetDisplayName := "", TargetId := resourceID,
         TargetType := resourceType }

/-- Modelled from the spec: `getTagsFromSchema` is not part of this source file; it reads
the label pairs of the `tag` field. -/
def getTagsFromSchema (d : ResourceData) : List Tag :=
  match d.Get "tag" with
  | .tagSet l => l
  | _ => []

/-- Modelled from the spec: `setTagsInSchema` is not part of this source file; it writes
the label pairs of the response into the `tag` field. -/
def setTagsInSchema (d : ResourceData) (tags : List Tag) : ResourceData :=
  (d.Set "tag" (.tagSet tags)).1

/-- Modelled from the spec: `getServiceBindingsFromSchema` is not part of this source
file; it turns the references of the named field into service bindings, in order. -/
def getServiceBindingsFromSchema (d : ResourceData) (schemaAttrName : String) :
    List ServiceBinding :=
  match d.Get schemaAttrName with
  | .refList l => l.map fun r => { ServiceId := r }
  | _ => []

/-- Modelled from the spec: `setServiceBindingsInSchema` is not part of this source file;
it expands the service bindings of the response into the references of the named field,
in order. -/
def setServiceBindingsInSchema (d : ResourceData) (serviceBindings : List ServiceBinding)
    (schemaAttrName : String) : ResourceData :=
  (d.Set schemaAttrName (.refList (serviceBindings.map fun b => b.ServiceId))).1

/-! ## The four operations -/

/-- Source function `resourceNsxtLogicalRouterLinkPortOnTier1Read`. The status of the
response is inspected before the error value, so a nil response is dereferenced. -/
def resourceNsxtLogicalRouterLinkPortOnTier1Read (d : ResourceData) (m : APIClient) :
    Exec :=
  let id := d.Id
  if id = "" then
    ⟨.ok (some .missingId), d, []⟩
  else
    match m.ReadLogicalRouterLinkPortOnTier1 id with
    | (logicalRouterLinkPort, resp, err) =>
      match resp with
      | none => ⟨.error .nilPointerDereference, d, [.read id]⟩
      | some resp =>
        if resp.StatusCode = StatusNotFound then
          ⟨.ok none, d.SetId "", [.read id]⟩
        else
          match err with
          | some err => ⟨.ok (some (.readFailed err)), d, [.read id]⟩
          | none =>
            let d := (d.Set "revision" (.int logicalRouterLinkPort.Revision)).1
            let d := (d.Set "description" (.str logicalRouterLinkPort.Description)).1
            let d := (d.Set "display_name" (.str logicalRouterLinkPort.DisplayName)).1
            let d := setTagsInSchema d logicalRouterLinkPort.Tags
            let d := (d.Set "logical_router_id"
              (.str logicalRouterLinkPort.LogicalRouterId)).1
            let d := (d.Set "linked_logical_router_port_id"
              (.ref logicalRouterLinkPort.LinkedLogicalRouterPortId)).1
            let d := setServiceBindingsInSchema d logicalRouterLinkPort.ServiceBindings
              "service_binding"
            ⟨.ok none, d, [.read id]⟩

/-- Source function `resourceNsxtLogicalRouterLinkPortOnTier1Create`. -/
def resourceNsxtLogicalRouterLinkPortOnTier1Create (d : ResourceData) (m : APIClient) :
    Exec :=
  let request : Except Panic LogicalRouterLinkPortOnTier1 := do
    let description ← (d.Get "description").assertString
    let displayName ← (d.Get "display_name").assertString
    let tags := getTagsFromSchema d
    let logicalRouterID ← (d.Get "logical_router_id").assertString
    let linkedLogicalRouterPortID ← (d.Get "linked_logical_router_port_id").assertString
    let serviceBinding := getServiceBindingsFromSchema d "service_binding"
    pure {
      Revision := 0
      Description := description
      DisplayName := displayName
      Id := ""
      ResourceType := ""
      Tags := tags
      LogicalRouterId := logicalRouterID
      LinkedLogicalRouterPortId :=
        makeResourceReference "LogicalPort" linkedLogicalRouterPortID
      ServiceBindings := serviceBinding }
  match request with
  | .error p => ⟨.error p, d, []⟩
  | .ok logicalRouterLinkPort =>
    match m.CreateLogicalRouterLinkPortOnTier1 logicalRouterLinkPort with
    | (created, resp, err) =>
      match err with
      | some err => ⟨.ok (some (.createFailed err)), d, [.create logicalRouterLinkPort]⟩
      | none =>
        match resp with
        | none => ⟨.error .nilPointerDereference, d, [.create logicalRouterLinkPort]⟩
        | some resp =>
          if resp.StatusCode ≠ StatusCreated then
            ⟨.ok (some (.createStatus resp.StatusCode)), d,
              [.create logicalRouterLinkPort]⟩
          else
            let d := d.SetId created.Id
            let r := resourceNsxtLogicalRouterLinkPortOnTier1Read d m
            { r with calls := .create logicalRouterLinkPort :: r.calls }

/-- Source function `resourceNsxtLogicalRouterLinkPortOnTier1Update`. The `||` is
short-circuit: the response is dereferenced only when the error value is nil. -/
def resourceNsxtLogicalRouterLinkPortOnTier1Update (d : ResourceData) (m : APIClient) :
    Exec :=
  let id := d.Id
  if id = "" then
    ⟨.ok (some .missingId), d, []⟩
  else
    let request : Except Panic LogicalRouterLinkPortOnTier1 := do
      let revision ← (d.Get "revision").assertInt
      let description ← (d.Get "description").assertString
      let displayName ← (d.Get "display_name").assertString
      let tags := getTagsFromSchema d
      let logicalRouterID ← (d.Get "logical_router_id").assertString
      let linkedLogicalRouterPortID ←
        (d.Get "linked_logical_router_port_id").assertString
      let serviceBinding := getServiceBindingsFromSchema d "service_binding"
      pure {
        Revision := revision
        Description := description
        DisplayName := displayName
        Id := ""
        ResourceType := "LogicalRouterLinkPortOnTIER1"
        Tags := tags
        LogicalRouterId := logicalRouterID
        LinkedLogicalRouterPortId :=
          makeResourceReference "LogicalPort" linkedLogicalRouterPortID
        ServiceBindings := serviceBinding }
    match request with
    | .error p => ⟨.error p, d, []⟩
    | .ok logicalRouterLinkPort =>
      match m.UpdateLogicalRouterLinkPortOnTier1 id logicalRouterLinkPort with
      | (_, resp, err) =>
        match err with
        | some err =>
          ⟨.ok (some (.updateFailed id (some err) resp)), d,
            [.update id logicalRouterLinkPort]⟩
        | none =>
          match resp with
          | none =>
            ⟨.error .nilPointerDereference, d, [.update id logicalRouterLinkPort]⟩
          | some resp =>
            if resp.StatusCode = StatusNotFound then
              ⟨.ok (some (.updateFailed id none (some resp))), d,
                [.update id logicalRouterLinkPort]⟩
            else
              let r := resourceNsxtLogicalRouterLinkPortOnTier1Read d m
              { r with calls := .update id logicalRouterLinkPort :: r.calls }

/-- Source function `resourceNsxtLogicalRouterLinkPortOnTier1Delete`. The error value is
inspected before the status of the response. -/
def resourceNsxtLogicalRouterLinkPortOnTier1Delete (d : ResourceData) (m : APIClient) :
    Exec :=
  let id := d.Id
  if id = "" then
    ⟨.ok (some .missingId), d, []⟩
  else
    match m.DeleteLogicalRouterPort id with
    | (resp, err) =>
      match err with
      | some err => ⟨.ok (some (.deleteFailed err)), d, [.delete id]⟩
      | none =>
        match resp with
        | none => ⟨.error .nilPointerDereference, d, [.delete id]⟩
        | some resp =>
          if resp.StatusCode = StatusNotFound then
            ⟨.ok none, d.SetId "", [.delete id]⟩
          else
            ⟨.ok none, d, [.delete id]⟩

/-! ## The records the operations send -/

/-- The record `resourceNsxtLogicalRouterLinkPortOnTier1Create` builds from the declared
fields (the struct literal of the source; fields it does not name have Go zero values). -/
def createBody (d : ResourceData) : LogicalRouterLinkPortOnTier1 :=
  { Revision := 0
    Description := d.description
    DisplayName := d.display_name
    Id := ""
    ResourceType := ""
    Tags := d.tag
    LogicalRouterId := d.logical_router_id
    LinkedLogicalRouterPortId :=
      makeResourceReference "LogicalPort" d.linked_logical_router_port_id
    ServiceBindings := d.service_binding.map fun r => { ServiceId := r } }

/-- The record `resourceNsxtLogicalRouterLinkPortOnTier1Update` builds from the state. -/
def updateBody (d : ResourceData) : LogicalRouterLinkPortOnTier1 :=
  { createBody d with
    Revision := d.revision
    ResourceType := "LogicalRouterLinkPortOnTIER1" }

/-! ## Sample states and clients -/

/-- A configuration before creation: no identifier yet. -/
def sampleConfig : ResourceData :=
  { id := "", revision := 0, description := "uplink", display_name := "lp-a",
    tag := [{ Scope := "env", Tag := "dev" }], logical_router_id := "lr-1",
    linked_logical_router_port_id := "p-9",
    service_binding := [{ IsValid := true, TargetDisplayName := "dhcp", TargetId := "svc-1",
                          TargetType := "LogicalService" }] }

/-- The state of that configuration once created under the identifier `port-1`. -/
def samplePort : ResourceData :=
  { sampleConfig with id := "port-1", revision := 3 }

/-- The remote copy of `samplePort` after a change of description: revision 4. -/
def sampleRemote : LogicalRouterLinkPortOnTier1 :=
  { updateBody samplePort with Id := "port-1", Revision := 4, Description := "downlink" }

/-- A client whose remote system works: create answers 201 with the record under the
identifier `port-1`, read answers 200 with the record Create sends, update answers 200,
delete answers 200. -/
def clientEcho : APIClient :=
  { CreateLogicalRouterLinkPortOnTier1 := fun body =>
      ({ body with Id := "port-1" }, some ⟨201⟩, none)
    ReadLogicalRouterLinkPortOnTier1 := fun id =>
      ({ createBody sampleConfig with Id := id }, some ⟨200⟩, none)
    UpdateLogicalRouterLinkPortOnTier1 := fun id body =>
      ({ body with Id := id }, some ⟨200⟩, none)
    DeleteLogicalRouterPort := fun _ => (some ⟨200⟩, none) }

/-- A client whose remote system knows no object: every call by identifier answers 404,
and, as the generated client does for a status of 300 and above, with an error value. -/
def clientNotFound : APIClient :=
  { clientEcho with
    ReadLogicalRouterLinkPortOnTier1 := fun _ =>
      (createBody sampleConfig, some ⟨404⟩, some "Status: 404 Not Found")
    UpdateLogicalRouterLinkPortOnTier1 := fun _ body =>
      (body, some ⟨404⟩, some "Status: 404 Not Found")
    DeleteLogicalRouterPort := fun _ => (some ⟨404⟩, some "Status: 404 Not Found") }

/-- A client that cannot reach the remote system: no response object, only an error. -/
def clientUnreachable : APIClient :=
  { CreateLogicalRouterLinkPortOnTier1 := fun body => (body, none, some "connection refused")
    ReadLogicalRouterLinkPortOnTier1 := fun _ =>
      (createBody sampleConfig, none, some "connection refused")
    UpdateLogicalRouterLinkPortOnTier1 := fun _ body =>
      (body, none, some "connection refused")
    DeleteLogicalRouterPort := fun _ => (none, some "connection refused") }

/-- A client whose remote port was linked to another peer port, `p-10`, behind the back of
the state store: read answers 200 with that reference. -/
def clientRelinked : APIClient :=
  { clientEcho with
    ReadLogicalRouterLinkPortOnTier1 := fun id =>
      ({ createBody sampleConfig with
          Id := id
          LinkedLogicalRouterPortId := makeResourceReference "LogicalPort" "p-10" },
        some ⟨200⟩, none) }

/-- A client whose remote system creates the object and no longer has it at the read that
follows: create answers 201, read answers 404. -/
def clientCreatedThenGone : APIClient :=
  { clientEcho with
    ReadLogicalRouterLinkPortOnTier1 := fun _ =>
      (createBody sampleConfig, some ⟨404⟩, some "Status: 404 Not Found") }

/-- A client whose remote system answers the update and the read that follows with 200,
the read carrying `sampleRemote`. -/
def clientUpdated : APIClient :=
  { clientEcho with
    ReadLogicalRouterLinkPortOnTier1 := fun _ => (sampleRemote, some ⟨200⟩, none) }

/-- A client whose remote system answers the create call with 200 rather than 201. -/
def clientCreateAnswersOk : APIClient :=
  { clientEcho with
    CreateLogicalRouterLinkPortOnTier1 := fun body =>
      ({ body with Id := "port-1" }, some ⟨200⟩, none) }

/-! ## Unfolding of the operations past the construction of the request -/

/-- Create, once the request record is built: the type assertions on the declared fields
never fail, and the record sent is `createBody d`. -/
theorem create_unfold (d : ResourceData) (m : APIClient) :
    resourceNsxtLogicalRouterLinkPortOnTier1Create d m =
      match m.CreateLogicalRouterLinkPortOnTier1 (createBody d) with
      | (created, resp, err) =>
        match err with
        | some err => ⟨.ok (some (.createFailed err)), d, [.create (createBody d)]⟩
        | none =>
          match resp with
          | none => ⟨.error .nilPointerDereference, d, [.create (createBody d)]⟩
          | some resp =>
            if resp.StatusCode ≠ StatusCreated then
              ⟨.ok (some (.createStatus resp.StatusCode)), d, [.create (createBody d)]⟩
            else
              { resourceNsxtLogicalRouterLinkPortOnTier1Read (d.SetId created.Id) m with
                calls := .create (createBody d) ::
                  (resourceNsxtLogicalRouterLinkPortOnTier1Read (d.SetId created.Id) m).calls } :=
  rfl

/-- Update, once the identifier is known to be set and the request record is built: the
record sent is `updateBody d`. -/
theorem update_unfold (d : ResourceData) (m : APIClient) (hid : d.Id ≠ "") :
    resourceNsxtLogicalRouterLinkPortOnTier1Update d m =
      match m.UpdateLogicalRouterLinkPortOnTier1 d.Id (updateBody d) with
      | (_, resp, err) =>
        match err with
        | some err =>
          ⟨.ok (some (.updateFailed d.Id (some err) resp)), d,
            [.update d.Id (updateBody d)]⟩
        | none =>
          match resp with
          | none => ⟨.error .nilPointerDereference, d, [.update d.Id (updateBody d)]⟩
          | some resp =>
            if resp.StatusCode = StatusNotFound then
              ⟨.ok (some (.updateFailed d.Id none (some resp))), d,
                [.update d.Id (updateBody d)]⟩
            else
              { resourceNsxtLogicalRouterLinkPortOnTier1Read d m with
                calls := .update d.Id (updateBody d) ::
                  (resourceNsxtLogicalRouterLinkPortOnTier1Read d m).calls } := by
  unfold resourceNsxtLogicalRouterLinkPortOnTier1Update
  simp only [hid, if_false]
  rfl

/-- Read, once the identifier is known to be set, when the client hands back no
response object: the dereference of the nil response panics. -/
theorem read_unfold_no_response (d : ResourceData) (m : APIClient)
    (payload : LogicalRouterLinkPortOnTier1) (err : Option String)
    (hid : d.Id ≠ "")
    (hcall : m.ReadLogicalRouterLinkPortOnTier1 d.Id = (payload, none, err)) :
    resourceNsxtLogicalRouterLinkPortOnTier1Read d m =
      ⟨.error .nilPointerDereference, d, [.read d.Id]⟩ := by
  unfold resourceNsxtLogicalRouterLinkPortOnTier1Read
  simp only [hid, if_false, hcall]

/-- Read, once the identifier is known to be set, when the response has status 404. -/
theorem read_unfold_not_found (d : ResourceData) (m : APIClient)
    (payload : LogicalRouterLinkPortOnTier1) (resp : Response) (err : Option String)
    (hid : d.Id ≠ "")
    (hcall : m.ReadLogicalRouterLinkPortOnTier1 d.Id = (payload, some resp, err))
    (hstatus : resp.StatusCode = StatusNotFound) :
    resourceNsxtLogicalRouterLinkPortOnTier1Read d m =
      ⟨.ok none, { d with id := "" }, [.read d.Id]⟩ := by
  unfold resourceNsxtLogicalRouterLinkPortOnTier1Read
  simp only [hid, if_false, hcall, hstatus, if_true]
  rfl

/-- Read, once the identifier is known to be set, when the response is not 404 and comes
with an error value. -/
theorem read_unfold_error (d : ResourceData) (m : APIClient)
    (payload : LogicalRouterLinkPortOnTier1) (resp : Response) (err : String)
    (hid : d.Id ≠ "")
    (hcall : m.ReadLogicalRouterLinkPortOnTier1 d.Id = (payload, some resp, some err))
    (hstatus : resp.StatusCode ≠ StatusNotFound) :
    resourceNsxtLogicalRouterLinkPortOnTier1Read d m =
      ⟨.ok (some (.readFailed err)), d, [.read d.Id]⟩ := by
  unfold resourceNsxtLogicalRouterLinkPortOnTier1Read
  simp only [hid, if_false, hcall, hstatus]

/-- Read, once the identifier is known to be set and the remote call has answered with a
response that is not 404 and no error: every field but the peer-port identifier is
overwritten from the payload; the peer-port identifier is cleared when the payload has no
reference and is otherwise left as it was, the store refusing the reference. -/
theorem read_unfold_success (d : ResourceData) (m : APIClient)
    (payload : LogicalRouterLinkPortOnTier1) (resp : Response)
    (hid : d.Id ≠ "")
    (hcall : m.ReadLogicalRouterLinkPortOnTier1 d.Id = (payload, some resp, none))
    (hstatus : resp.StatusCode ≠ StatusNotFound) :
    resourceNsxtLogicalRouterLinkPortOnTier1Read d m =
      ⟨.ok none,
        { id := d.id
          revision := payload.Revision
          description := payload.Description
          display_name := payload.DisplayName
          tag := payload.Tags
          logical_router_id := payload.LogicalRouterId
          linked_logical_router_port_id :=
            match payload.LinkedLogicalRouterPortId with
            | none => ""
            | some _ => d.linked_logical_router_port_id
          service_binding := payload.ServiceBindings.map fun b => b.ServiceId },
        [.read d.Id]⟩ := by
  unfold resourceNsxtLogicalRouterLinkPortOnTier1Read
  simp only [hid, if_false, hcall, hstatus]
  cases hl : payload.LinkedLogicalRouterPortId <;> rfl

/-- Read on a state whose identifier is set issues the read call for that identifier and
no other call, however the remote system answers. -/
theorem read_calls (d : ResourceData) (m : APIClient) (hid : d.Id ≠ "") :
    (resourceNsxtLogicalRouterLinkPortOnTier1Read d m).calls = [.read d.Id] := by
  rcases hr : m.ReadLogicalRouterLinkPortOnTier1 d.Id with ⟨payload, resp, err⟩
  cases resp with
  | none => rw [read_unfold_no_response d m payload err hid hr]
  | some r =>
    by_cases h404 : r.StatusCode = StatusNotFound
    · rw [read_unfold_not_found d m payload r err hid hr h404]
    · cases err with
      | some e => rw [read_unfold_error d m payload r e hid hr h404]
      | none => rw [read_unfold_success d m payload r hid hr h404]

/-! ## Missing identifier -/

/-- The three operations that start from the identifier stop at once when it is empty. -/
theorem missing_identifier_unfold (d : ResourceData) (m : APIClient) (hid : d.Id = "") :
    resourceNsxtLogicalRouterLinkPortOnTier1Read d m = ⟨.ok (some .missingId), d, []⟩ ∧
    resourceNsxtLogicalRouterLinkPortOnTier1Update d m = ⟨.ok (some .missingId), d, []⟩ ∧
    resourceNsxtLogicalRouterLinkPortOnTier1Delete d m = ⟨.ok (some .missingId), d, []⟩ := by
  refine ⟨?_, ?_, ?_⟩
  · unfold resourceNsxtLogicalRouterLinkPortOnTier1Read
    simp only [hid, if_true]
  · unfold resourceNsxtLogicalRouterLinkPortOnTier1Update
    simp only [hid, if_true]
  · unfold resourceNsxtLogicalRouterLinkPortOnTier1Delete
    simp only [hid, if_true]

/-- C7: Read, Update and Delete on a state whose identifier is the empty string each
return the missing-identifier error, issue no remote call and leave the state as it was. -/
theorem missing_identifier_is_rejected (d : ResourceData) (m : APIClient)
    (hid : d.Id = "") :
    resourceNsxtLogicalRouterLinkPortOnTier1Read d m = ⟨.ok (some .missingId), d, []⟩ ∧
    resourceNsxtLogicalRouterLinkPortOnTier1Update d m = ⟨.ok (some .missingId), d, []⟩ ∧
    resourceNsxtLogicalRouterLinkPortOnTier1Delete d m = ⟨.ok (some .missingId), d, []⟩ :=
  missing_identifier_unfold d m hid

/-- C7 at the sample configuration, which has no identifier yet. -/
theorem missing_identifier_is_rejected_witness :
    sampleConfig.Id = "" ∧
    (resourceNsxtLogicalRouterLinkPortOnTier1Read sampleConfig clientEcho
        = ⟨.ok (some .missingId), sampleConfig, []⟩ ∧
     resourceNsxtLogicalRouterLinkPortOnTier1Update sampleConfig clientEcho
        = ⟨.ok (some .missingId), sampleConfig, []⟩ ∧
     resourceNsxtLogicalRouterLinkPortOnTier1Delete sampleConfig clientEcho
        = ⟨.ok (some .missingId), sampleConfig, []⟩) :=
  ⟨rfl, missing_identifier_is_rejected sampleConfig clientEcho rfl⟩

/-! ## Read -/

/-- C2: when the identifier is set and the response of the remote read has status 404,
with or without an error value next to it, Read returns no error, has issued that one
call, and the state afterwards is the state before with the identifier emptied: no other
field is written. -/
theorem read_not_found_clears_identifier (d : ResourceData) (m : APIClient)
    (payload : LogicalRouterLinkPortOnTier1) (resp : Response) (err : Option String)
    (hid : d.Id ≠ "")
    (hcall : m.ReadLogicalRouterLinkPortOnTier1 d.Id = (payload, some resp, err))
    (hstatus : resp.StatusCode = StatusNotFound) :
    resourceNsxtLogicalRouterLinkPortOnTier1Read d m =
      ⟨.ok none, { d with id := "" }, [.read d.Id]⟩ :=
  read_unfold_not_found d m payload resp err hid hcall hstatus

/-- C2 at the sample port with a client that answers 404 together with an error value. -/
theorem read_not_found_clears_identifier_witness :
    samplePort.Id ≠ "" ∧
    clientNotFound.ReadLogicalRouterLinkPortOnTier1 samplePort.Id
      = (createBody sampleConfig, some ⟨404⟩, some "Status: 404 Not Found") ∧
    (⟨404⟩ : Response).StatusCode = StatusNotFound ∧
    resourceNsxtLogicalRouterLinkPortOnTier1Read samplePort clientNotFound =
      ⟨.ok none, { samplePort with id := "" }, [.read samplePort.Id]⟩ :=
  ⟨by decide, rfl, rfl,
    read_not_found_clears_identifier samplePort clientNotFound (createBody sampleConfig)
      ⟨404⟩ (some "Status: 404 Not Found") (by decide) rfl rfl⟩

/-- C3 at a transport failure: the client hands back no response object and an error
value; Read inspects the status of the response first and ends in a nil-pointer panic
instead of returning an error. -/
theorem read_without_response_panics :
    samplePort.Id ≠ "" ∧
    clientUnreachable.ReadLogicalRouterLinkPortOnTier1 samplePort.Id
      = (createBody sampleConfig, none, some "connection refused") ∧
    (resourceNsxtLogicalRouterLinkPortOnTier1Read samplePort clientUnreachable).outcome
      = .error .nilPointerDereference ∧
    ∀ e, (resourceNsxtLogicalRouterLinkPortOnTier1Read samplePort clientUnreachable).outcome
      ≠ .ok (some e) := by
  refine ⟨by decide, rfl, rfl, ?_⟩
  intro e h
  have h2 : (resourceNsxtLogicalRouterLinkPortOnTier1Read samplePort clientUnreachable).outcome
      = .error .nilPointerDereference := rfl
  rw [h2] at h
  cases h

/-- What Read does with the peer-port reference of the payload: it hands the reference
itself, not its target identifier, to the string-typed field, and the store refuses it.
On the round trip through Create (configuration with peer port `p-9`, remote system
answering with the record sent) the refused write leaves the configured `p-9` in place.
On a read of the created port after the remote port was linked to `p-10`, Read returns no
error, takes over the other fields, and the state still says `p-9`. -/
theorem read_does_not_expand_peer_port_reference :
    (samplePort.Set "linked_logical_router_port_id"
        (.ref (makeResourceReference "LogicalPort" "p-9"))
      = (samplePort,
          some "linked_logical_router_port_id: expected type string, got unconvertible type")) ∧
    (resourceNsxtLogicalRouterLinkPortOnTier1Create sampleConfig clientEcho).outcome
      = .ok none ∧
    (resourceNsxtLogicalRouterLinkPortOnTier1Create sampleConfig clientEcho).d
      = { sampleConfig with id := "port-1" } ∧
    (clientRelinked.ReadLogicalRouterLinkPortOnTier1 samplePort.Id).1.LinkedLogicalRouterPortId
      = makeResourceReference "LogicalPort" "p-10" ∧
    (clientRelinked.ReadLogicalRouterLinkPortOnTier1 samplePort.Id).2
      = (some ⟨200⟩, none) ∧
    (resourceNsxtLogicalRouterLinkPortOnTier1Read samplePort clientRelinked).outcome
      = .ok none ∧
    (resourceNsxtLogicalRouterLinkPortOnTier1Read samplePort
        clientRelinked).d.linked_logical_router_port_id = "p-9" ∧
    (resourceNsxtLogicalRouterLinkPortOnTier1Read samplePort clientRelinked).d
      = { samplePort with revision := 0 } :=
  ⟨rfl, rfl, rfl, rfl, rfl, rfl, rfl, rfl⟩

/-! ## Delete -/

/-- C1 at a not-found answer that comes with an error value: Delete inspects the error
value first, returns it as an error and keeps the identifier. -/
theorem delete_not_found_with_error_is_surfaced :
    samplePort.Id ≠ "" ∧
    clientNotFound.DeleteLogicalRouterPort samplePort.Id
      = (some ⟨StatusNotFound⟩, some "Status: 404 Not Found") ∧
    resourceNsxtLogicalRouterLinkPortOnTier1Delete samplePort clientNotFound =
      ⟨.ok (some (.deleteFailed "Status: 404 Not Found")), samplePort,
        [.delete "port-1"]⟩ ∧
    (resourceNsxtLogicalRouterLinkPortOnTier1Delete samplePort clientNotFound).d.Id
      = "port-1" :=
  ⟨by decide, rfl, rfl, rfl⟩

/-! ## Create -/

/-- C5: when the remote create call carries an error value, or its response has a status
other than 201 (200 included), Create returns an error, has issued the create call and
nothing else (no read), and leaves the state as it was, so an unset identifier stays
unset. -/
theorem create_failure_is_surfaced (d : ResourceData) (m : APIClient)
    (created : LogicalRouterLinkPortOnTier1) (resp : Option Response) (err : Option String)
    (hcall : m.CreateLogicalRouterLinkPortOnTier1 (createBody d) = (created, resp, err))
    (hfail : err ≠ none ∨ ∃ r, resp = some r ∧ r.StatusCode ≠ StatusCreated) :
    (∃ e, (resourceNsxtLogicalRouterLinkPortOnTier1Create d m).outcome = .ok (some e)) ∧
    (resourceNsxtLogicalRouterLinkPortOnTier1Create d m).calls = [.create (createBody d)] ∧
    (∀ id, Call.read id ∉ (resourceNsxtLogicalRouterLinkPortOnTier1Create d m).calls) ∧
    (resourceNsxtLogicalRouterLinkPortOnTier1Create d m).d = d ∧
    (d.Id = "" → (resourceNsxtLogicalRouterLinkPortOnTier1Create d m).d.Id = "") := by
  rw [create_unfold, hcall]
  cases err with
  | some e => simp
  | none =>
    rcases hfail with h | ⟨r, hr, hs⟩
    · exact absurd rfl h
    · subst hr
      simp [hs]

/-- C5 at the sample configuration with a client that answers the create call with 200. -/
theorem create_failure_is_surfaced_witness :
    clientCreateAnswersOk.CreateLogicalRouterLinkPortOnTier1 (createBody sampleConfig)
      = ({ createBody sampleConfig with Id := "port-1" }, some ⟨200⟩, none) ∧
    ((none : Option String) ≠ none ∨
      ∃ r, some (⟨200⟩ : Response) = some r ∧ r.StatusCode ≠ StatusCreated) ∧
    ((∃ e, (resourceNsxtLogicalRouterLinkPortOnTier1Create sampleConfig
        clientCreateAnswersOk).outcome = .ok (some e)) ∧
     (resourceNsxtLogicalRouterLinkPortOnTier1Create sampleConfig
        clientCreateAnswersOk).calls = [.create (createBody sampleConfig)] ∧
     (∀ id, Call.read id ∉ (resourceNsxtLogicalRouterLinkPortOnTier1Create sampleConfig
        clientCreateAnswersOk).calls) ∧
     (resourceNsxtLogicalRouterLinkPortOnTier1Create sampleConfig clientCreateAnswersOk).d
        = sampleConfig ∧
     (sampleConfig.Id = "" → (resourceNsxtLogicalRouterLinkPortOnTier1Create sampleConfig
        clientCreateAnswersOk).d.Id = "")) :=
  ⟨rfl, Or.inr ⟨⟨200⟩, rfl, by decide⟩,
    create_failure_is_surfaced sampleConfig clientCreateAnswersOk
      { createBody sampleConfig with Id := "port-1" } (some ⟨200⟩) none rfl
      (Or.inr ⟨⟨200⟩, rfl, by decide⟩)⟩

/-- C4: for every configuration, with logical_router_id r and
linked_logical_router_port_id p, when the remote create call answers 201 without error
and the read that follows returns, without error, the record Create sent under the
identifier and a revision the remote system assigned, the state after Create has
logical_router_id equal to r and linked_logical_router_port_id equal to p, the target of
the reference Create built with makeResourceReference for LogicalPort and p. Create
returns no error when that identifier is not empty. -/
theorem create_round_trip_keeps_references (d : ResourceData) (m : APIClient)
    (created : LogicalRouterLinkPortOnTier1) (r rr : Response) (rev : Int)
    (hcreate : m.CreateLogicalRouterLinkPortOnTier1 (createBody d)
      = (created, some r, none))
    (hstatus : r.StatusCode = StatusCreated)
    (hread : m.ReadLogicalRouterLinkPortOnTier1 created.Id
      = ({ createBody d with Id := created.Id, Revision := rev }, some rr, none)) :
    (resourceNsxtLogicalRouterLinkPortOnTier1Create d m).d.logical_router_id
      = d.logical_router_id ∧
    (resourceNsxtLogicalRouterLinkPortOnTier1Create d m).d.linked_logical_router_port_id
      = d.linked_logical_router_port_id ∧
    (∃ ref, (createBody d).LinkedLogicalRouterPortId = some ref ∧
      ref.TargetType = "LogicalPort" ∧
      ref.TargetId
        = (resourceNsxtLogicalRouterLinkPortOnTier1Create d m).d.linked_logical_router_port_id) ∧
    (created.Id ≠ "" →
      (resourceNsxtLogicalRouterLinkPortOnTier1Create d m).outcome = .ok none) := by
  rw [create_unfold, hcreate]
  simp only [hstatus, ne_eq, not_true_eq_false, if_false]
  by_cases hid : (d.SetId created.Id).Id = ""
  · rw [(missing_identifier_unfold (d.SetId created.Id) m hid).1]
    exact ⟨rfl, rfl, ⟨_, rfl, rfl, rfl⟩, fun h => absurd hid h⟩
  · have hread2 : m.ReadLogicalRouterLinkPortOnTier1 (d.SetId created.Id).Id
        = ({ createBody d with Id := created.Id, Revision := rev }, some rr, none) := hread
    by_cases h404 : rr.StatusCode = StatusNotFound
    · rw [read_unfold_not_found _ m _ rr none hid hread2 h404]
      exact ⟨rfl, rfl, ⟨_, rfl, rfl, rfl⟩, fun _ => rfl⟩
    · rw [read_unfold_success _ m _ rr hid hread2 h404]
      exact ⟨rfl, rfl, ⟨_, rfl, rfl, rfl⟩, fun _ => rfl⟩

/-- C4 at the sample configuration (router `lr-1`, peer port `p-9`) with a working remote
system that answers the read with the record Create sent. -/
theorem create_round_trip_keeps_references_witness :
    clientEcho.CreateLogicalRouterLinkPortOnTier1 (createBody sampleConfig)
      = ({ createBody sampleConfig with Id := "port-1" }, some ⟨201⟩, none) ∧
    (⟨201⟩ : Response).StatusCode = StatusCreated ∧
    clientEcho.ReadLogicalRouterLinkPortOnTier1 "port-1"
      = ({ createBody sampleConfig with Id := "port-1", Revision := 0 }, some ⟨200⟩, none) ∧
    sampleConfig.logical_router_id = "lr-1" ∧
    sampleConfig.linked_logical_router_port_id = "p-9" ∧
    ((resourceNsxtLogicalRouterLinkPortOnTier1Create sampleConfig
        clientEcho).d.logical_router_id = sampleConfig.logical_router_id ∧
     (resourceNsxtLogicalRouterLinkPortOnTier1Create sampleConfig
        clientEcho).d.linked_logical_router_port_id
        = sampleConfig.linked_logical_router_port_id ∧
     (∃ ref, (createBody sampleConfig).LinkedLogicalRouterPortId = some ref ∧
        ref.TargetType = "LogicalPort" ∧
        ref.TargetId = (resourceNsxtLogicalRouterLinkPortOnTier1Create sampleConfig
          clientEcho).d.linked_logical_router_port_id) ∧
     (({ createBody sampleConfig with Id := "port-1" } :
          LogicalRouterLinkPortOnTier1).Id ≠ "" →
        (resourceNsxtLogicalRouterLinkPortOnTier1Create sampleConfig clientEcho).outcome
          = .ok none)) :=
  ⟨rfl, rfl, rfl, rfl, rfl,
    create_round_trip_keeps_references sampleConfig clientEcho
      { createBody sampleConfig with Id := "port-1" } ⟨201⟩ ⟨200⟩ 0 rfl rfl rfl⟩

/-- C6 fails when the object is gone at the read that follows its creation: create
answers 201 with the identifier `port-1`, the read answers 404, Create returns no error
and the identifier of the state is empty, not `port-1`. -/
theorem create_success_with_emptied_identifier :
    (clientCreatedThenGone.CreateLogicalRouterLinkPortOnTier1
        (createBody sampleConfig)).1.Id = "port-1" ∧
    (resourceNsxtLogicalRouterLinkPortOnTier1Create sampleConfig
        clientCreatedThenGone).outcome = .ok none ∧
    (resourceNsxtLogicalRouterLinkPortOnTier1Create sampleConfig
        clientCreatedThenGone).calls
      = [.create (createBody sampleConfig), .read "port-1"] ∧
    (resourceNsxtLogicalRouterLinkPortOnTier1Create sampleConfig
        clientCreatedThenGone).d.Id = "" ∧
    ¬ ((resourceNsxtLogicalRouterLinkPortOnTier1Create sampleConfig
        clientCreatedThenGone).d.Id
      = (clientCreatedThenGone.CreateLogicalRouterLinkPortOnTier1
          (createBody sampleConfig)).1.Id) :=
  ⟨rfl, rfl, rfl, rfl, by decide⟩

/-- C6 as amended: whenever Create returns without error, the create call and one read
were issued, the read for the identifier carried by the record the create call returned,
and the identifier of the state is that identifier unless the response of that read had
status 404, in which case it is empty. -/
theorem create_success_identifier (d : ResourceData) (m : APIClient)
    (hok : (resourceNsxtLogicalRouterLinkPortOnTier1Create d m).outcome = .ok none) :
    ∃ resp,
      (m.ReadLogicalRouterLinkPortOnTier1
        (m.CreateLogicalRouterLinkPortOnTier1 (createBody d)).1.Id).2.1 = some resp ∧
      (resourceNsxtLogicalRouterLinkPortOnTier1Create d m).calls =
        [.create (createBody d),
         .read (m.CreateLogicalRouterLinkPortOnTier1 (createBody d)).1.Id] ∧
      (resp.StatusCode ≠ StatusNotFound →
        (resourceNsxtLogicalRouterLinkPortOnTier1Create d m).d.Id =
          (m.CreateLogicalRouterLinkPortOnTier1 (createBody d)).1.Id) ∧
      (resp.StatusCode = StatusNotFound →
        (resourceNsxtLogicalRouterLinkPortOnTier1Create d m).d.Id = "") := by
  rw [create_unfold] at hok ⊢
  rcases hc : m.CreateLogicalRouterLinkPortOnTier1 (createBody d) with ⟨created, resp, err⟩
  rw [hc] at hok
  cases err with
  | some e => simp at hok
  | none =>
    cases resp with
    | none => simp at hok
    | some r =>
      by_cases hs : r.StatusCode = StatusCreated
      · simp only [hs, ne_eq, not_true_eq_false, if_false] at hok ⊢
        by_cases hid : (d.SetId created.Id).Id = ""
        · have hm := (missing_identifier_unfold (d.SetId created.Id) m hid).1
          rw [hm] at hok
          simp at hok
        · have hid2 : (d.SetId created.Id).Id = created.Id := rfl
          rcases hr : m.ReadLogicalRouterLinkPortOnTier1 (d.SetId created.Id).Id with
            ⟨payload, rresp, rerr⟩
          rw [hid2] at hr
          cases rresp with
          | none =>
            rw [read_unfold_no_response _ m payload rerr hid hr] at hok
            simp at hok
          | some rr =>
            refine ⟨rr, by rw [hr], ?_⟩
            by_cases h404 : rr.StatusCode = StatusNotFound
            · rw [read_unfold_not_found _ m payload rr rerr hid hr h404]
              simp [h404, ResourceData.Id, ResourceData.SetId]
            · cases rerr with
              | some e =>
                rw [read_unfold_error _ m payload rr e hid hr h404] at hok
                simp at hok
              | none =>
                rw [read_unfold_success _ m payload rr hid hr h404]
                simp [h404, hid2, ResourceData.Id, ResourceData.SetId]
      · simp [hs] at hok

/-- C6 as amended, at the sample configuration with a working remote system. -/
theorem create_success_identifier_witness :
    (resourceNsxtLogicalRouterLinkPortOnTier1Create sampleConfig clientEcho).outcome
      = .ok none ∧
    ∃ resp,
      (clientEcho.ReadLogicalRouterLinkPortOnTier1
        (clientEcho.CreateLogicalRouterLinkPortOnTier1
          (createBody sampleConfig)).1.Id).2.1 = some resp ∧
      (resourceNsxtLogicalRouterLinkPortOnTier1Create sampleConfig clientEcho).calls =
        [.create (createBody sampleConfig),
         .read (clientEcho.CreateLogicalRouterLinkPortOnTier1
          (createBody sampleConfig)).1.Id] ∧
      (resp.StatusCode ≠ StatusNotFound →
        (resourceNsxtLogicalRouterLinkPortOnTier1Create sampleConfig clientEcho).d.Id =
          (clientEcho.CreateLogicalRouterLinkPortOnTier1
            (createBody sampleConfig)).1.Id) ∧
      (resp.StatusCode = StatusNotFound →
        (resourceNsxtLogicalRouterLinkPortOnTier1Create sampleConfig clientEcho).d.Id
          = "") :=
  ⟨rfl, create_success_identifier sampleConfig clientEcho rfl⟩

/-! ## Update -/

/-- C8: when the identifier is set and the remote update call carries an error value, or
its response has status 404, Update returns an error, has issued the update call and
nothing else (Read is not invoked, no read call is issued), and leaves the identifier and
every field of the state as they were. -/
theorem update_failure_is_surfaced (d : ResourceData) (m : APIClient)
    (updated : LogicalRouterLinkPortOnTier1) (resp : Option Response) (err : Option String)
    (hid : d.Id ≠ "")
    (hcall : m.UpdateLogicalRouterLinkPortOnTier1 d.Id (updateBody d) = (updated, resp, err))
    (hfail : err ≠ none ∨ ∃ r, resp = some r ∧ r.StatusCode = StatusNotFound) :
    resourceNsxtLogicalRouterLinkPortOnTier1Update d m =
      ⟨.ok (some (.updateFailed d.Id err resp)), d, [.update d.Id (updateBody d)]⟩ ∧
    (∀ id, Call.read id ∉ (resourceNsxtLogicalRouterLinkPortOnTier1Update d m).calls) := by
  rw [update_unfold d m hid, hcall]
  cases err with
  | some e => simp
  | none =>
    rcases hfail with h | ⟨r, hr, hs⟩
    · exact absurd rfl h
    · subst hr
      simp [hs]

/-- C8 at the sample port with a client that answers the update with 404 and an error
value. -/
theorem update_failure_is_surfaced_witness :
    samplePort.Id ≠ "" ∧
    clientNotFound.UpdateLogicalRouterLinkPortOnTier1 samplePort.Id (updateBody samplePort)
      = (updateBody samplePort, some ⟨404⟩, some "Status: 404 Not Found") ∧
    (some "Status: 404 Not Found" ≠ none ∨
      ∃ r, some (⟨404⟩ : Response) = some r ∧ r.StatusCode = StatusNotFound) ∧
    (resourceNsxtLogicalRouterLinkPortOnTier1Update samplePort clientNotFound =
      ⟨.ok (some (.updateFailed samplePort.Id (some "Status: 404 Not Found")
          (some ⟨404⟩))), samplePort,
        [.update samplePort.Id (updateBody samplePort)]⟩ ∧
     (∀ id, Call.read id ∉
        (resourceNsxtLogicalRouterLinkPortOnTier1Update samplePort clientNotFound).calls)) :=
  ⟨by decide, rfl, Or.inl (by simp),
    update_failure_is_surfaced samplePort clientNotFound (updateBody samplePort)
      (some ⟨404⟩) (some "Status: 404 Not Found") (by decide) rfl
      (Or.inl (by simp))⟩

/-- C9: when the identifier is set, the first remote call of Update is the replace call
addressed to that identifier, no other replace call follows (only the read of the same
identifier may), and the record sent carries the revision of the state unchanged, its
description, display name, tags, service bindings and logical_router_id, the reference of
type LogicalPort to the linked_logical_router_port_id of the state, and the resource type
LogicalRouterLinkPortOnTIER1. -/
theorem update_sends_full_record (d : ResourceData) (m : APIClient) (hid : d.Id ≠ "") :
    ∃ body rest,
      (resourceNsxtLogicalRouterLinkPortOnTier1Update d m).calls
        = .update d.Id body :: rest ∧
      (∀ c ∈ rest, c = .read d.Id) ∧
      body.Revision = d.revision ∧
      body.Description = d.description ∧
      body.DisplayName = d.display_name ∧
      body.Tags = d.tag ∧
      body.ServiceBindings = d.service_binding.map (fun r => { ServiceId := r }) ∧
      body.LogicalRouterId = d.logical_router_id ∧
      body.LinkedLogicalRouterPortId
        = makeResourceReference "LogicalPort" d.linked_logical_router_port_id ∧
      (∃ ref, body.LinkedLogicalRouterPortId = some ref ∧ ref.TargetType = "LogicalPort" ∧
        ref.TargetId = d.linked_logical_router_port_id) ∧
      body.ResourceType = "LogicalRouterLinkPortOnTIER1" := by
  have hcalls : ∃ rest,
      (resourceNsxtLogicalRouterLinkPortOnTier1Update d m).calls
        = .update d.Id (updateBody d) :: rest ∧ ∀ c ∈ rest, c = .read d.Id := by
    rw [update_unfold d m hid]
    rcases m.UpdateLogicalRouterLinkPortOnTier1 d.Id (updateBody d) with
      ⟨updated, resp, err⟩
    cases err with
    | some e => exact ⟨[], rfl, by simp⟩
    | none =>
      cases resp with
      | none => exact ⟨[], rfl, by simp⟩
      | some r =>
        by_cases h404 : r.StatusCode = StatusNotFound
        · exact ⟨[], by simp [h404], by simp⟩
        · exact ⟨[.read d.Id], by simp [h404, read_calls d m hid], by simp⟩
  obtain ⟨rest, hsent, hrest⟩ := hcalls
  exact ⟨updateBody d, rest, hsent, hrest, rfl, rfl, rfl, rfl, rfl, rfl, rfl,
    ⟨_, rfl, rfl, rfl⟩, rfl⟩

/-- C9 at the sample port, whose revision is 3 and whose peer port is `p-9`. -/
theorem update_sends_full_record_witness :
    samplePort.Id ≠ "" ∧
    ∃ body rest,
      (resourceNsxtLogicalRouterLinkPortOnTier1Update samplePort clientEcho).calls
        = .update samplePort.Id body :: rest ∧
      (∀ c ∈ rest, c = .read samplePort.Id) ∧
      body.Revision = samplePort.revision ∧
      body.Description = samplePort.description ∧
      body.DisplayName = samplePort.display_name ∧
      body.Tags = samplePort.tag ∧
      body.ServiceBindings = samplePort.service_binding.map (fun r => { ServiceId := r }) ∧
      body.LogicalRouterId = samplePort.logical_router_id ∧
      body.LinkedLogicalRouterPortId
        = makeResourceReference "LogicalPort" samplePort.linked_logical_router_port_id ∧
      (∃ ref, body.LinkedLogicalRouterPortId = some ref ∧ ref.TargetType = "LogicalPort" ∧
        ref.TargetId = samplePort.linked_logical_router_port_id) ∧
      body.ResourceType = "LogicalRouterLinkPortOnTIER1" :=
  ⟨by decide, update_sends_full_record samplePort clientEcho (by decide)⟩

/-- C10: when the identifier is set, the remote update call returns without error and
with a status other than 404, and the read that follows returns a record without error
and with a status other than 404, Update returns no error, the identifier is unchanged,
and revision, description and display_name of the state are those of that record. -/
theorem update_then_read_reflects_remote (d : ResourceData) (m : APIClient)
    (updated payload : LogicalRouterLinkPortOnTier1) (r1 r2 : Response)
    (hid : d.Id ≠ "")
    (hupdate : m.UpdateLogicalRouterLinkPortOnTier1 d.Id (updateBody d)
      = (updated, some r1, none))
    (h1 : r1.StatusCode ≠ StatusNotFound)
    (hread : m.ReadLogicalRouterLinkPortOnTier1 d.Id = (payload, some r2, none))
    (h2 : r2.StatusCode ≠ StatusNotFound) :
    (resourceNsxtLogicalRouterLinkPortOnTier1Update d m).outcome = .ok none ∧
    (resourceNsxtLogicalRouterLinkPortOnTier1Update d m).d.Id = d.Id ∧
    (resourceNsxtLogicalRouterLinkPortOnTier1Update d m).d.revision = payload.Revision ∧
    (resourceNsxtLogicalRouterLinkPortOnTier1Update d m).d.description
      = payload.Description ∧
    (resourceNsxtLogicalRouterLinkPortOnTier1Update d m).d.display_name
      = payload.DisplayName := by
  rw [update_unfold d m hid, hupdate]
  simp only [h1, if_false]
  rw [read_unfold_success d m payload r2 hid hread h2]
  exact ⟨rfl, rfl, rfl, rfl, rfl⟩

/-- C10 at the sample port (revision 3, description `uplink`) with a remote system that
holds revision 4 and description `downlink` after the update. -/
theorem update_then_read_reflects_remote_witness :
    samplePort.Id ≠ "" ∧
    clientUpdated.UpdateLogicalRouterLinkPortOnTier1 samplePort.Id (updateBody samplePort)
      = ({ updateBody samplePort with Id := "port-1" }, some ⟨200⟩, none) ∧
    clientUpdated.ReadLogicalRouterLinkPortOnTier1 samplePort.Id
      = (sampleRemote, some ⟨200⟩, none) ∧
    (⟨200⟩ : Response).StatusCode ≠ StatusNotFound ∧
    sampleRemote.Revision = 4 ∧ sampleRemote.Description = "downlink" ∧
    ((resourceNsxtLogicalRouterLinkPortOnTier1Update samplePort clientUpdated).outcome
      = .ok none ∧
     (resourceNsxtLogicalRouterLinkPortOnTier1Update samplePort clientUpdated).d.Id
      = samplePort.Id ∧
     (resourceNsxtLogicalRouterLinkPortOnTier1Update samplePort clientUpdated).d.revision
      = sampleRemote.Revision ∧
     (resourceNsxtLogicalRouterLinkPortOnTier1Update samplePort clientUpdated).d.description
      = sampleRemote.Description ∧
     (resourceNsxtLogicalRouterLinkPortOnTier1Update samplePort clientUpdated).d.display_name
      = sampleRemote.DisplayName) :=
  ⟨by decide, rfl, rfl, by decide, rfl, rfl,
    update_then_read_reflects_remote samplePort clientUpdated
      { updateBody samplePort with Id := "port-1" } sampleRemote ⟨200⟩ ⟨200⟩
      (by decide) rfl (by decide) rfl (by decide)⟩

end nsxt
